import Mathlib

set_option maxRecDepth 100000

/-!
Verification of the `stripelistener` Rust crate (src/rust/src/lib.rs), a
realtime event-delivery client for the Stripe webhook relay.  The pure control flow of the crate is shallowly embedded here: JSON values are an inductive
type, `serde_json` parsing/decoding is modelled by an executable
recursive-descent parser plus per-struct decoders mirroring the derived
`Deserialize` impls, the read-loop dispatcher becomes a function from the
list of received frames to a trace of observable effects (ack enqueues,
handler callbacks, log calls), and the one-shot operations (`authorize`,
`connect` preparation) become functions over explicit listener state with
the HTTP response / handshake outcome supplied as input.
-/

/-- JSON values, modelling `serde_json::Value`.  Numbers are modelled as
integers: the only numeric field the crate ever decodes is the `u64`
`created` timestamp, and the parser below accepts integer literals only. -/
inductive Json where
  | null : Json
  | bool (b : Bool) : Json
  | num (n : Int) : Json
  | str (s : String) : Json
  | arr (elems : List Json) : Json
  | obj (fields : List (String × Json)) : Json
deriving Repr, Inhabited

/-- JSON whitespace. -/
def isJsonWs (c : Char) : Bool :=
  c = ' ' || c = '\t' || c = '\n' || c = '\r'

/-- Drop leading JSON whitespace. -/
def skipWs : List Char → List Char
  | [] => []
  | c :: cs => if isJsonWs c then skipWs cs else c :: cs

/-- Value of one hex digit. -/
def hexVal (c : Char) : Option Nat :=
  if '0' ≤ c ∧ c ≤ '9' then some (c.toNat - '0'.toNat)
  else if 'a' ≤ c ∧ c ≤ 'f' then some (c.toNat - 'a'.toNat + 10)
  else if 'A' ≤ c ∧ c ≤ 'F' then some (c.toNat - 'A'.toNat + 10)
  else none

/-- Decode a JSON string body (after the opening quote), handling the
standard escapes; `\u` takes four hex digits (surrogate pairs are not
recombined, matching no field this crate decodes).  Fuel bounds recursion. -/
def parseStrAux : Nat → List Char → List Char → Option (String × List Char)
  | 0, _, _ => none
  | _ + 1, _, [] => (none : Option (String × List Char))
  | fuel + 1, acc, c :: cs =>
    if c = '"' then some (String.mk acc.reverse, cs)
    else if c = '\\' then
      match cs with
      | [] => none
      | e :: cs2 =>
        if e = '"' then parseStrAux fuel ('"' :: acc) cs2
        else if e = '\\' then parseStrAux fuel ('\\' :: acc) cs2
        else if e = '/' then parseStrAux fuel ('/' :: acc) cs2
        else if e = 'b' then parseStrAux fuel (Char.ofNat 8 :: acc) cs2
        else if e = 'f' then parseStrAux fuel (Char.ofNat 12 :: acc) cs2
        else if e = 'n' then parseStrAux fuel ('\n' :: acc) cs2
        else if e = 'r' then parseStrAux fuel ('\r' :: acc) cs2
        else if e = 't' then parseStrAux fuel ('\t' :: acc) cs2
        else if e = 'u' then
          match cs2 with
          | h1 :: h2 :: h3 :: h4 :: cs3 =>
            match hexVal h1, hexVal h2, hexVal h3, hexVal h4 with
            | some a, some b, some c3, some d =>
              parseStrAux fuel (Char.ofNat (a * 4096 + b * 256 + c3 * 16 + d) :: acc) cs3
            | _, _, _, _ => none
          | _ => none
        else none
    else parseStrAux fuel (c :: acc) cs

/-- Decimal digit test. -/
def isDigitCh (c : Char) : Bool := '0' ≤ c ∧ c ≤ '9'

/-- Read a run of decimal digits, returning their value and the rest. -/
def parseDigits : Nat → List Char → Nat → Option (Nat × List Char)
  | 0, _, _ => none
  | _ + 1, [], acc => some (acc, [])
  | fuel + 1, c :: cs, acc =>
    if isDigitCh c then parseDigits fuel cs (acc * 10 + (c.toNat - '0'.toNat))
    else some (acc, c :: cs)

/-- Match a literal keyword prefix. -/
def stripKeyword : List Char → List Char → Option (List Char)
  | [], cs => some cs
  | _, [] => none
  | k :: ks, c :: cs => if c = k then stripKeyword ks cs else none

mutual

/-- Recursive-descent parser for one JSON value, modelling
the `serde_json::from_str` grammar restricted to integer numerals (the
crate decodes no fractional field).  Fuel bounds recursion depth. -/
def parseVal : Nat → List Char → Option (Json × List Char)
  | 0, _ => none
  | fuel + 1, cs =>
    match skipWs cs with
    | [] => none
    | c :: rest =>
      if c = '"' then
        match parseStrAux (rest.length + 1) [] rest with
        | some (s, rest2) => some (Json.str s, rest2)
        | none => none
      else if c = '\x7b' then
        parseObjFields fuel (skipWs rest) true []
      else if c = '[' then
        parseArrElems fuel (skipWs rest) true []
      else if c = 't' then
        (stripKeyword ['r', 'u', 'e'] rest).map (fun r => (Json.bool true, r))
      else if c = 'f' then
        (stripKeyword ['a', 'l', 's', 'e'] rest).map (fun r => (Json.bool false, r))
      else if c = 'n' then
        (stripKeyword ['u', 'l', 'l'] rest).map (fun r => (Json.null, r))
      else if c = '-' then
        match rest with
        | d :: _ =>
          if isDigitCh d then
            (parseDigits (rest.length + 1) rest 0).map
              (fun p => (Json.num (-(p.1 : Int)), p.2))
          else none
        | [] => none
      else if isDigitCh c then
        (parseDigits (rest.length + 2) (c :: rest) 0).map
          (fun p => (Json.num (p.1 : Int), p.2))
      else none

/-- Parse the members of a JSON object after the opening brace; `first`
records whether no member has been read yet (closing brace allowed, comma
not yet required). -/
def parseObjFields : Nat → List Char → Bool → List (String × Json) →
    Option (Json × List Char)
  | 0, _, _, _ => none
  | fuel + 1, cs, first, acc =>
    match cs with
    | [] => none
    | c :: rest =>
      if c = '\x7d' then some (Json.obj acc.reverse, rest)
      else
        match (if first then some (c :: rest)
               else if c = ',' then some (skipWs rest)
               else none) with
        | none => none
        | some cs2 =>
          match cs2 with
          | k :: cs3 =>
            if k = '"' then
              match parseStrAux (cs3.length + 1) [] cs3 with
              | some (key, cs4) =>
                match skipWs cs4 with
                | ':' :: cs5 =>
                  match parseVal fuel cs5 with
                  | some (v, cs6) =>
                    parseObjFields fuel (skipWs cs6) false ((key, v) :: acc)
                  | none => none
                | _ => none
              | none => none
            else none
          | [] => none

/-- Parse the elements of a JSON array after the opening bracket. -/
def parseArrElems : Nat → List Char → Bool → List Json →
    Option (Json × List Char)
  | 0, _, _, _ => none
  | fuel + 1, cs, first, acc =>
    match cs with
    | [] => none
    | c :: rest =>
      if c = ']' then some (Json.arr acc.reverse, rest)
      else
        match (if first then some (c :: rest)
               else if c = ',' then some (skipWs rest)
               else none) with
        | none => none
        | some cs2 =>
          match parseVal fuel cs2 with
          | some (v, cs3) => parseArrElems fuel (skipWs cs3) false (v :: acc)
          | none => none

end

/-- `serde_json::from_str` to a `Value`: parse one JSON value and require
only trailing whitespace after it. -/
def parseJson (s : String) : Option Json :=
  match parseVal (s.toList.length + 1) s.toList with
  | some (j, rest) => if skipWs rest = [] then some j else none
  | none => none

/-! ## Data structures (src/rust/src/lib.rs lines 76-131) -/

/-- `Session` (lib.rs 76-81): the descriptor returned by `authorize`. -/
structure Session where
  websocket_id : String
  websocket_url : String
  websocket_authorized_feature : String
deriving Repr, DecidableEq

/-- `IncomingMessage` (lib.rs 83-89): declared kind in the `type` field,
remaining fields captured untouched by the `serde(flatten)` `data` value. -/
structure IncomingMessage where
  msg_type : String
  data : Json
deriving Repr

/-- `WebhookEvent` (lib.rs 91-98): webhook delivery envelope; the
`event_payload` is a JSON-encoded string decoded a second time. -/
structure WebhookEvent where
  webhook_id : String
  webhook_conversation_id : String
  event_payload : String
  extra : Json
deriving Repr

/-- `V2Event` (lib.rs 100-106): v2 delivery envelope. -/
structure V2Event where
  destination_id : String
  payload : String
  extra : Json
deriving Repr

/-- `StripeEventPayload` (lib.rs 108-115).  `created` is a `u64`; the
decoder below enforces the unsigned 64-bit range. -/
structure StripeEventPayload where
  id : String
  event_type : String
  created : Nat
  livemode : Bool
deriving Repr, DecidableEq

/-- `V2EventPayload` (lib.rs 117-122). -/
structure V2EventPayload where
  id : String
  event_type : String
deriving Repr, DecidableEq

/-- `EventAck` (lib.rs 124-131): the outbound acknowledgment; the code
serializes it with `serde_json::to_string` (which cannot fail on this
struct) and enqueues the resulting text frame. -/
structure EventAck where
  msg_type : String
  event_id : String
  webhook_conversation_id : String
  webhook_id : String
deriving Repr, DecidableEq

/-! ## serde decoders

Each function mirrors the derived `Deserialize` impl of the corresponding
struct: a struct decodes from a JSON object; each named field is required
with its expected type; a `serde(flatten)` `Value` field receives the
object formed by the remaining (unconsumed) members; without `flatten`,
unknown members are ignored (the serde default). -/

/-- Look up a member of a JSON object (first occurrence). -/
def Json.getField (j : Json) (name : String) : Option Json :=
  match j with
  | .obj fields => fields.lookup name
  | _ => none

/-- The members of a JSON object minus those consumed by named fields. -/
def Json.remainderObj (j : Json) (consumed : List String) : Json :=
  match j with
  | .obj fields => .obj (fields.filter (fun p => ¬ consumed.contains p.1))
  | _ => .obj []

def Json.asString : Json → Option String
  | .str s => some s
  | _ => none

def Json.asBool : Json → Option Bool
  | .bool b => some b
  | _ => none

/-- Decode a `u64` field: an integer in `[0, 2^64)`. -/
def Json.asU64 : Json → Option Nat
  | .num n => if 0 ≤ n ∧ n < 2 ^ 64 then some n.toNat else none
  | _ => none

/-- `serde_json::from_str::<IncomingMessage>` after parsing (lib.rs 83-89,
277): `type` is required as a string and the flattened `data` keeps every
other member untouched. -/
def decodeIncoming (j : Json) : Option IncomingMessage :=
  match j with
  | .obj _ =>
    match (j.getField "type").bind Json.asString with
    | some t => some ⟨t, j.remainderObj ["type"]⟩
    | none => none
  | _ => none

/-- `serde_json::from_value::<WebhookEvent>` (lib.rs 91-98, 287). -/
def decodeWebhookEvent (j : Json) : Option WebhookEvent :=
  match j with
  | .obj _ =>
    match (j.getField "webhook_id").bind Json.asString,
          (j.getField "webhook_conversation_id").bind Json.asString,
          (j.getField "event_payload").bind Json.asString with
    | some wid, some wcid, some payload =>
      some ⟨wid, wcid, payload,
        j.remainderObj ["webhook_id", "webhook_conversation_id", "event_payload"]⟩
    | _, _, _ => none
  | _ => none

/-- `serde_json::from_value::<V2Event>` (lib.rs 100-106, 311). -/
def decodeV2Event (j : Json) : Option V2Event :=
  match j with
  | .obj _ =>
    match (j.getField "destination_id").bind Json.asString,
          (j.getField "payload").bind Json.asString with
    | some did, some payload =>
      some ⟨did, payload, j.remainderObj ["destination_id", "payload"]⟩
    | _, _ => none
  | _ => none

/-- `serde_json::from_str::<StripeEventPayload>` after parsing
(lib.rs 108-115, 288). -/
def decodeStripeEventPayload (j : Json) : Option StripeEventPayload :=
  match j with
  | .obj _ =>
    match (j.getField "id").bind Json.asString,
          (j.getField "type").bind Json.asString,
          (j.getField "created").bind Json.asU64,
          (j.getField "livemode").bind Json.asBool with
    | some i, some t, some c, some l => some ⟨i, t, c, l⟩
    | _, _, _, _ => none
  | _ => none

/-- `serde_json::from_str::<V2EventPayload>` after parsing
(lib.rs 117-122, 312). -/
def decodeV2EventPayload (j : Json) : Option V2EventPayload :=
  match j with
  | .obj _ =>
    match (j.getField "id").bind Json.asString,
          (j.getField "type").bind Json.asString with
    | some i, some t => some ⟨i, t⟩
    | _, _ => none
  | _ => none

/-- `resp.json::<Session>()` decoding (lib.rs 76-81, 195). -/
def decodeSession (j : Json) : Option Session :=
  match j with
  | .obj _ =>
    match (j.getField "websocket_id").bind Json.asString,
          (j.getField "websocket_url").bind Json.asString,
          (j.getField "websocket_authorized_feature").bind Json.asString with
    | some i, some u, some f => some ⟨i, u, f⟩
    | _, _, _ => none
  | _ => none

/-! ## Configuration and listener state (lib.rs 12-18, 44-73, 134-152) -/

/-- Constants (lib.rs 13-18).  Durations are modelled in whole seconds,
matching `Duration::from_secs`. -/
def CLI_VERSION : String := "1.21.0"

def SUBPROTOCOL : String := "stripecli-devproxy-v1"

def SESSION_PATH : String := "/v1/stripecli/sessions"

def API_BASE : String := "https://api.stripe.com"

def DEFAULT_PONG_WAIT : Nat := 10

def DEFAULT_PING_PERIOD : Nat := 2

/-- A reference to an injected `Arc<dyn Logger>`: either the built-in
`NopLogger` or a caller-supplied implementation (identified opaquely). -/
inductive LoggerRef where
  | nop : LoggerRef
  | custom (id : Nat) : LoggerRef
deriving Repr, DecidableEq

/-- `Config` (lib.rs 45-53).  The required `handler: Arc<dyn EventHandler>`
is an opaque reference here: callbacks are recorded in the dispatch trace
rather than executed.  `pong_wait` and `ping_period` are seconds. -/
structure Config where
  api_key : String
  device_name : Option String
  websocket_features : Option (List String)
  handler : Nat
  logger : Option LoggerRef
  pong_wait : Option Nat
  ping_period : Option Nat
deriving Repr, DecidableEq

/-- `Config::defaults` (lib.rs 56-72): fill each unset optional field. -/
def Config.defaults (c : Config) : Config :=
  let c := if c.device_name = none
    then { c with device_name := some "custom-stripe-listener" } else c
  let c := if c.websocket_features = none
    then { c with websocket_features := some ["webhooks"] } else c
  let c := if c.pong_wait = none
    then { c with pong_wait := some DEFAULT_PONG_WAIT } else c
  let c := if c.ping_period = none
    then { c with ping_period := some DEFAULT_PING_PERIOD } else c
  let c := if c.logger = none
    then { c with logger := some LoggerRef.nop } else c
  c

/-- `StripeListener` (lib.rs 134-138).  The `write_tx` sender is modelled
as a presence flag. -/
structure StripeListener where
  cfg : Config
  session : Option Session
  write_tx : Option Unit
deriving Repr, DecidableEq

/-- `StripeListener::new` (lib.rs 141-148). -/
def StripeListener.new (cfg : Config) : StripeListener :=
  { cfg := cfg.defaults, session := none, write_tx := none }

/-! ## authorize (lib.rs 154-199) -/

/-- `User-Agent` value used by both `authorize` and `connect`
(lib.rs 169, 211, 226). -/
def userAgent : String := "Stripe/v1 stripe-cli/" ++ CLI_VERSION

/-- Build platform constants, modelling `std::env::consts::OS` and
`std::env::consts::ARCH` for the build this development reasons about. -/
def osConst : String := "linux"

def archConst : String := "x86_64"

/-- The serialized `X-Stripe-Client-User-Agent` JSON block (lib.rs
170-176, 212-218): `serde_json::json!` uses a sorted map, so members are
rendered in key order. -/
def xStripeClientUserAgent : String :=
  "\x7b\"name\":\"stripe-cli\",\"os\":\"" ++ osConst ++
  "\",\"publisher\":\"stripe\",\"uname\":\"" ++ osConst ++ " " ++ archConst ++
  "\",\"version\":\"" ++ CLI_VERSION ++ "\"\x7d"

/-- An outbound HTTP request: URL, headers, form parameters. -/
structure HttpRequest where
  url : String
  headers : List (String × String)
  params : List (String × String)
deriving Repr, DecidableEq

/-- The authorize request construction (lib.rs 155-186): form parameters
from device name and requested capabilities, the fixed header block, and
the bearer credential plus content type only when the credential is
non-empty.  `HeaderValue` character validation is not modelled. -/
def StripeListener.authorizeRequest (l : StripeListener) : HttpRequest :=
  let params :=
    (match l.cfg.device_name with
     | some n => [("device_name", n)]
     | none => []) ++
    (match l.cfg.websocket_features with
     | some fs => fs.map (fun f => ("websocket_features[]", f))
     | none => [])
  let headers :=
    [("Accept-Encoding", "identity"),
     ("User-Agent", userAgent),
     ("X-Stripe-Client-User-Agent", xStripeClientUserAgent)]
  let headers :=
    if l.cfg.api_key = "" then headers
    else headers ++
      [("Authorization", "Bearer " ++ l.cfg.api_key),
       ("Content-Type", "application/x-www-form-urlencoded")]
  { url := API_BASE ++ SESSION_PATH, headers := headers, params := params }

/-- An HTTP response as seen by `authorize`: status code and body text. -/
structure HttpResponse where
  status : Nat
  body : String
deriving Repr, DecidableEq

/-- `reqwest::StatusCode::is_success`: 2xx. -/
def statusIsSuccess (s : Nat) : Bool := 200 ≤ s ∧ s < 300

/-- Errors out of `authorize` (the code uses boxed error strings; lib.rs
192 formats the HTTP failure from status and body verbatim, and a failed
`resp.json::<Session>()` propagates as a decode error). -/
inductive AuthErr where
  | httpError (status : Nat) (body : String) : AuthErr
  | malformedSession : AuthErr
deriving Repr, DecidableEq

/-- `StripeListener::authorize` (lib.rs 154-199) given the HTTP response:
non-2xx fails with status and body and leaves the listener untouched; on
2xx the body must decode to a `Session`, which is stored and returned.
The transport itself is external input; the sending of the request (whose
shape is `authorizeRequest`) always precedes this step. -/
def StripeListener.authorize (l : StripeListener) (resp : HttpResponse) :
    Except AuthErr Session × StripeListener :=
  if statusIsSuccess resp.status then
    match (parseJson resp.body).bind decodeSession with
    | some s => (Except.ok s, { l with session := some s })
    | none => (Except.error AuthErr.malformedSession, l)
  else
    (Except.error (AuthErr.httpError resp.status resp.body), l)

/-! ## connect: URL, handshake request, loops (lib.rs 201-352) -/

/-- Errors out of `connect` before the loops start (lib.rs 202, 205-206,
233): missing session, invalid URL, failed handshake. -/
inductive ConnErr where
  | stateError (msg : String) : ConnErr
  | urlError (msg : String) : ConnErr
  | connectionError (msg : String) : ConnErr
deriving Repr, DecidableEq

/-- Split a character list at the first occurrence of `://`, returning
the scheme part and the remainder. -/
def splitScheme : List Char → Option (List Char × List Char)
  | [] => none
  | ':' :: '/' :: '/' :: rest => some ([], rest)
  | c :: rest => (splitScheme rest).map (fun p => (c :: p.1, p.2))

/-- Simplified model of `url::Url::parse` followed by `host_str()`
(lib.rs 205-206): a non-empty scheme, the `://` separator, then a
non-empty host running to the first `/`, `?`, `#` or `:`.  Failures of
the full parser and a missing host are merged into one `none`. -/
def urlHostStr (u : String) : Option String :=
  match splitScheme u.toList with
  | none => none
  | some (scheme, rest) =>
    if scheme = [] then none
    else
      let host := rest.takeWhile
        (fun c => c ≠ '/' ∧ c ≠ '?' ∧ c ≠ '#' ∧ c ≠ ':')
      if host = [] then none else some (String.mk host)

/-- The websocket handshake request the code builds (lib.rs 222-228):
URI plus the explicitly declared headers.  Protocol-mandated upgrade
headers added by tungstenite itself are not part of the source and are
not modelled.  Note the `HeaderMap` built at lib.rs 208-218 (with
`X-Stripe-Client-User-Agent`) is never attached to this request. -/
structure HandshakeRequest where
  uri : String
  headers : List (String × String)
deriving Repr, DecidableEq

/-- The pre-handshake phase of `StripeListener::connect` (lib.rs
201-228): require a session, build the socket URL by appending the
authorized feature as a query parameter, validate it, and build the
handshake request. -/
def StripeListener.connectPrep (l : StripeListener) :
    Except ConnErr HandshakeRequest :=
  match l.session with
  | none => Except.error (ConnErr.stateError "call authorize() before connect()")
  | some session =>
    let ws_url := session.websocket_url ++ "?websocket_feature=" ++
      session.websocket_authorized_feature
    match urlHostStr ws_url with
    | none => Except.error (ConnErr.urlError "invalid websocket url")
    | some _ =>
      Except.ok
        { uri := ws_url,
          headers :=
            [("Websocket-Id", session.websocket_id),
             ("Sec-WebSocket-Protocol", SUBPROTOCOL),
             ("User-Agent", userAgent)] }

/-! ## The dispatch trace -/

/-- One observable effect of the read loop (lib.rs 274-349): an ack
enqueued on the egress sender (the code serializes the `EventAck` with
`serde_json::to_string`, which cannot fail for this struct, and sends the
text frame best-effort), a handler callback, or a logger call.  Log
messages that interpolate a serde error value are modelled without the
library error text. -/
inductive TraceItem where
  | enqueueAck (ack : EventAck) : TraceItem
  | callWebhook (evt : WebhookEvent) (parsed : StripeEventPayload) : TraceItem
  | callV2 (evt : V2Event) (parsed : V2EventPayload) : TraceItem
  | callUnknown (rawType : String) (data : Json) : TraceItem
  | logDebug (msg : String) : TraceItem
  | logInfo (msg : String) : TraceItem
  | logWarn (msg : String) : TraceItem
  | logError (msg : String) : TraceItem
deriving Repr

/-- Processing of one inbound text frame (lib.rs 276-337), as the list of
effects it produces in order. -/
def processTextFrame (text : String) : List TraceItem :=
  match (parseJson text).bind decodeIncoming with
  | none => [TraceItem.logWarn "malformed message"]
  | some incoming =>
    if incoming.msg_type = "webhook_event" then
      match decodeWebhookEvent incoming.data with
      | none => []
      | some evt =>
        match (parseJson evt.event_payload).bind decodeStripeEventPayload with
        | none => [TraceItem.logWarn "could not parse event_payload"]
        | some parsed =>
          [TraceItem.enqueueAck
             ⟨"event_ack", parsed.id, evt.webhook_conversation_id, evt.webhook_id⟩,
           TraceItem.callWebhook evt parsed]
    else if incoming.msg_type = "v2_event" then
      match decodeV2Event incoming.data with
      | none => []
      | some evt =>
        match (parseJson evt.payload).bind decodeV2EventPayload with
        | none => [TraceItem.logWarn "could not parse v2 payload"]
        | some parsed =>
          [TraceItem.enqueueAck
             ⟨"event_ack", parsed.id, "", evt.destination_id⟩,
           TraceItem.callV2 evt parsed]
    else
      [TraceItem.callUnknown incoming.msg_type incoming.data]

/-- A websocket frame as delivered by the ingress stream
(`tungstenite::Message`). -/
inductive WsMessage where
  | text (s : String) : WsMessage
  | binary (bytes : List Nat) : WsMessage
  | ping (payload : List Nat) : WsMessage
  | pong (payload : List Nat) : WsMessage
  | close : WsMessage
deriving Repr, DecidableEq

/-- One item of the ingress stream: `Ok(message)` or a read error. -/
inductive ReadItem where
  | ok (m : WsMessage) : ReadItem
  | err (e : String) : ReadItem
deriving Repr, DecidableEq

/-- The effects of one non-terminating read-loop step: text frames are
dispatched, other non-terminal frames are ignored (lib.rs 347). -/
def ReadItem.stepTrace : ReadItem → List TraceItem
  | .ok (.text s) => processTextFrame s
  | _ => []

/-- Whether this ingress item ends the read loop (lib.rs 339-346): a
close frame or a read error. -/
def ReadItem.isTerminal : ReadItem → Bool
  | .ok .close => true
  | .err _ => true
  | _ => false

/-- The read loop (lib.rs 274-349) over the ingress stream: dispatch text
frames, ignore binary/ping/pong, stop at a close frame (logged at info),
a read error (logged at error) or exhaustion of the stream. -/
def readLoop : List ReadItem → List TraceItem
  | [] => []
  | ReadItem.ok (WsMessage.text s) :: rest => processTextFrame s ++ readLoop rest
  | ReadItem.ok WsMessage.close :: _ => [TraceItem.logInfo "websocket closed"]
  | ReadItem.err e :: _ => [TraceItem.logError ("read error: " ++ e)]
  | ReadItem.ok _ :: rest => readLoop rest

/-- The concatenated effects of a run of non-terminal steps. -/
def stepTraces : List ReadItem → List TraceItem
  | [] => []
  | i :: rest => i.stepTrace ++ stepTraces rest

/-- Logs emitted between a successful handshake and the read loop
(lib.rs 231, 234). -/
def connectLogTrace (req : HandshakeRequest) : List TraceItem :=
  [TraceItem.logDebug ("dialing " ++ req.uri),
   TraceItem.logInfo "websocket connected"]

/-- `StripeListener::connect` (lib.rs 201-352) with the handshake outcome
and the ingress stream supplied as input: after `connectPrep`, a failed
`connect_async` propagates as a `ConnErr`; once connected the read loop
runs to termination and `connect` returns `Ok(())` — here, the trace of
the session.  The writer task is the sole consumer of the egress queue
and is driven by the enqueue effects in the trace. -/
def StripeListener.connectModel (l : StripeListener)
    (handshake : Except String Unit) (frames : List ReadItem) :
    Except ConnErr (List TraceItem) :=
  match l.connectPrep with
  | Except.error e => Except.error e
  | Except.ok req =>
    match handshake with
    | Except.error e => Except.error (ConnErr.connectionError e)
    | Except.ok _ => Except.ok (connectLogTrace req ++ readLoop frames)

/-! ## Concrete fixtures

Sample frames, sessions and configurations used to instantiate the
theorems below on closed inputs (the webhook frame is the scenario from
the design document). -/

/-- The inner serialized webhook event payload. -/
def wPayload : String :=
  "\x7b\"id\":\"evt_1\",\"type\":\"charge.succeeded\",\"created\":1000,\"livemode\":false\x7d"

/-- A well-formed `webhook_event` text frame. -/
def wFrame : String :=
  "\x7b\"type\":\"webhook_event\",\"webhook_id\":\"wh_1\",\"webhook_conversation_id\":\"wc_1\",\"event_payload\":\"\x7b\\\"id\\\":\\\"evt_1\\\",\\\"type\\\":\\\"charge.succeeded\\\",\\\"created\\\":1000,\\\"livemode\\\":false\x7d\"\x7d"

/-- The envelope decoded from `wFrame`. -/
def wInc : IncomingMessage :=
  ⟨"webhook_event",
   Json.obj [("webhook_id", Json.str "wh_1"),
             ("webhook_conversation_id", Json.str "wc_1"),
             ("event_payload", Json.str wPayload)]⟩

/-- The webhook delivery envelope decoded from `wInc`. -/
def wEvt : WebhookEvent := ⟨"wh_1", "wc_1", wPayload, Json.obj []⟩

/-- The inner payload decoded from `wEvt`. -/
def wParsed : StripeEventPayload := ⟨"evt_1", "charge.succeeded", 1000, false⟩

/-- The inner serialized v2 event payload. -/
def vPayload : String := "\x7b\"id\":\"evt_2\",\"type\":\"v2.core.event\"\x7d"

/-- A well-formed `v2_event` text frame. -/
def vFrame : String :=
  "\x7b\"type\":\"v2_event\",\"destination_id\":\"dst_1\",\"payload\":\"\x7b\\\"id\\\":\\\"evt_2\\\",\\\"type\\\":\\\"v2.core.event\\\"\x7d\"\x7d"

/-- The envelope decoded from `vFrame`. -/
def vInc : IncomingMessage :=
  ⟨"v2_event",
   Json.obj [("destination_id", Json.str "dst_1"),
             ("payload", Json.str vPayload)]⟩

/-- The v2 delivery envelope decoded from `vInc`. -/
def vEvt : V2Event := ⟨"dst_1", vPayload, Json.obj []⟩

/-- The inner payload decoded from `vEvt`. -/
def vParsed : V2EventPayload := ⟨"evt_2", "v2.core.event"⟩

/-- A `webhook_event` frame whose envelope decodes but whose inner
serialized payload is not JSON. -/
def badFrame : String :=
  "\x7b\"type\":\"webhook_event\",\"webhook_id\":\"wh_1\",\"webhook_conversation_id\":\"wc_1\",\"event_payload\":\"not json\"\x7d"

/-- The envelope decoded from `badFrame`. -/
def badInc : IncomingMessage :=
  ⟨"webhook_event",
   Json.obj [("webhook_id", Json.str "wh_1"),
             ("webhook_conversation_id", Json.str "wc_1"),
             ("event_payload", Json.str "not json")]⟩

/-- The webhook delivery envelope decoded from `badInc`. -/
def badEvt : WebhookEvent := ⟨"wh_1", "wc_1", "not json", Json.obj []⟩

/-- A `v2_event` frame whose envelope decodes but whose inner serialized
payload is not JSON. -/
def badV2Frame : String :=
  "\x7b\"type\":\"v2_event\",\"destination_id\":\"dst_1\",\"payload\":\"nope\"\x7d"

/-- The envelope decoded from `badV2Frame`. -/
def badV2Inc : IncomingMessage :=
  ⟨"v2_event",
   Json.obj [("destination_id", Json.str "dst_1"),
             ("payload", Json.str "nope")]⟩

/-- The v2 delivery envelope decoded from `badV2Inc`. -/
def badV2Evt : V2Event := ⟨"dst_1", "nope", Json.obj []⟩

/-- A frame of an unrecognized kind. -/
def unkFrame : String := "\x7b\"type\":\"hello\",\"n\":1\x7d"

/-- The untouched remaining fields of `unkFrame`. -/
def unkData : Json := Json.obj [("n", Json.num 1)]

/-- A sample configuration with every optional field unset. -/
def cfg0 : Config := ⟨"sk_test_123", none, none, 0, none, none, none⟩

/-- A sample configuration with an empty credential. -/
def cfgEmptyKey : Config := ⟨"", none, none, 0, none, none, none⟩

/-- The session of the design-document scenario. -/
def s6 : Session := ⟨"ws_1", "wss://x", "webhooks"⟩

/-- A listener holding `s6`, as after a successful `authorize`. -/
def l6 : StripeListener :=
  { cfg := cfg0.defaults, session := some s6, write_tx := none }

/-- The handshake request `connectPrep` builds from `s6`. -/
def req6 : HandshakeRequest :=
  ⟨"wss://x?websocket_feature=webhooks",
   [("Websocket-Id", "ws_1"),
    ("Sec-WebSocket-Protocol", SUBPROTOCOL),
    ("User-Agent", userAgent)]⟩

/-! ## Theorems -/

/-- Claim C1: for every inbound text frame whose declared kind is
`webhook_event` or `v2_event` and whose envelope and inner serialized
payload both decode successfully, exactly one acknowledgment frame is
enqueued on the egress sender before the corresponding handler callback
is invoked, with event id from the decoded inner payload, and for
webhook events the conversation and webhook identifiers copied from the
delivery envelope, while for v2 events the conversation identifier is
the empty string and the webhook identifier is the destination
identifier of the envelope. -/
theorem c1_ack_before_callback (text : String) (incoming : IncomingMessage)
    (hinc : (parseJson text).bind decodeIncoming = some incoming) :
    (incoming.msg_type = "webhook_event" →
      ∀ evt parsed, decodeWebhookEvent incoming.data = some evt →
        (parseJson evt.event_payload).bind decodeStripeEventPayload = some parsed →
        processTextFrame text =
          [TraceItem.enqueueAck
             ⟨"event_ack", parsed.id, evt.webhook_conversation_id, evt.webhook_id⟩,
           TraceItem.callWebhook evt parsed]) ∧
    (incoming.msg_type = "v2_event" →
      ∀ evt parsed, decodeV2Event incoming.data = some evt →
        (parseJson evt.payload).bind decodeV2EventPayload = some parsed →
        processTextFrame text =
          [TraceItem.enqueueAck ⟨"event_ack", parsed.id, "", evt.destination_id⟩,
           TraceItem.callV2 evt parsed]) := by
  constructor <;> intro hk evt parsed h1 h2 <;>
    simp [processTextFrame, hinc, hk, h1, h2]

/-- Witness for C1: the design-document scenario frame produces exactly
the ack (with the mapped identifiers) followed by the webhook callback,
and the sample v2 frame its ack followed by the v2 callback. -/
theorem c1_ack_before_callback_witness :
    processTextFrame wFrame =
      [TraceItem.enqueueAck ⟨"event_ack", "evt_1", "wc_1", "wh_1"⟩,
       TraceItem.callWebhook wEvt wParsed] ∧
    processTextFrame vFrame =
      [TraceItem.enqueueAck ⟨"event_ack", "evt_2", "", "dst_1"⟩,
       TraceItem.callV2 vEvt vParsed] :=
  ⟨(c1_ack_before_callback wFrame wInc rfl).1 rfl wEvt wParsed rfl rfl,
   (c1_ack_before_callback vFrame vInc rfl).2 rfl vEvt vParsed rfl rfl⟩

/-- Claim C2: for every inbound frame of kind `webhook_event` or
`v2_event` whose delivery envelope decodes but whose inner serialized
payload fails to decode, the trace is exactly one warning log entry — no
ack is enqueued and no handler callback fires — and the read loop
continues with the next frame. -/
theorem c2_inner_decode_failure_dropped (text : String)
    (incoming : IncomingMessage)
    (hinc : (parseJson text).bind decodeIncoming = some incoming) :
    (incoming.msg_type = "webhook_event" →
      ∀ evt, decodeWebhookEvent incoming.data = some evt →
        (parseJson evt.event_payload).bind decodeStripeEventPayload = none →
        processTextFrame text = [TraceItem.logWarn "could not parse event_payload"]) ∧
    (incoming.msg_type = "v2_event" →
      ∀ evt, decodeV2Event incoming.data = some evt →
        (parseJson evt.payload).bind decodeV2EventPayload = none →
        processTextFrame text = [TraceItem.logWarn "could not parse v2 payload"]) ∧
    (∀ rest, readLoop (ReadItem.ok (WsMessage.text text) :: rest) =
      processTextFrame text ++ readLoop rest) := by
  refine ⟨?_, ?_, fun rest => rfl⟩ <;> intro hk evt h1 h2 <;>
    simp [processTextFrame, hinc, hk, h1, h2]

/-- Witness for C2: the sample frames with undecodable inner payloads
produce only the warning, and the read loop proceeds to the next frame. -/
theorem c2_inner_decode_failure_dropped_witness :
    processTextFrame badFrame = [TraceItem.logWarn "could not parse event_payload"] ∧
    processTextFrame badV2Frame = [TraceItem.logWarn "could not parse v2 payload"] ∧
    readLoop [ReadItem.ok (WsMessage.text badFrame)] = processTextFrame badFrame ++ readLoop [] :=
  ⟨(c2_inner_decode_failure_dropped badFrame badInc rfl).1 rfl badEvt rfl rfl,
   (c2_inner_decode_failure_dropped badV2Frame badV2Inc rfl).2.1 rfl badV2Evt rfl rfl,
   (c2_inner_decode_failure_dropped badFrame badInc rfl).2.2 []⟩

/-- Claim C3: for every inbound text frame that decodes as an envelope
but whose declared kind is neither `webhook_event` nor `v2_event`, the
unknown-message callback is invoked with the raw declared kind and the
untouched remaining fields, and no ack is enqueued. -/
theorem c3_unknown_kind_callback (text : String) (incoming : IncomingMessage)
    (hinc : (parseJson text).bind decodeIncoming = some incoming)
    (hk1 : incoming.msg_type ≠ "webhook_event")
    (hk2 : incoming.msg_type ≠ "v2_event") :
    processTextFrame text = [TraceItem.callUnknown incoming.msg_type incoming.data] := by
  simp [processTextFrame, hinc, hk1, hk2]

/-- Witness for C3: a frame of kind `hello` fires only the
unknown-message callback, with the remaining fields untouched. -/
theorem c3_unknown_kind_callback_witness :
    processTextFrame unkFrame = [TraceItem.callUnknown "hello" unkData] :=
  c3_unknown_kind_callback unkFrame ⟨"hello", unkData⟩ rfl
    (by decide) (by decide)

/-- Claim C4: an `authorize` call whose HTTP response has a
non-successful status fails with an authorization error carrying the
status code and the response body verbatim and leaves the stored session
unchanged; moreover, for any response at all, the stored session is
either left unchanged or set to a fully decoded session on a successful
status — never partially populated. -/
theorem c4_authorize_error_leaves_session (l : StripeListener)
    (resp : HttpResponse) (h : statusIsSuccess resp.status = false) :
    l.authorize resp = (Except.error (AuthErr.httpError resp.status resp.body), l) ∧
    (l.authorize resp).2.session = l.session ∧
    (∀ r : HttpResponse,
      (l.authorize r).2.session = l.session ∨
      ∃ s : Session, statusIsSuccess r.status = true ∧
        (parseJson r.body).bind decodeSession = some s ∧
        (l.authorize r).2.session = some s ∧
        (l.authorize r).1 = Except.ok s) := by
  refine ⟨?_, ?_, ?_⟩
  · simp [StripeListener.authorize, h]
  · simp [StripeListener.authorize, h]
  · intro r
    by_cases hr : statusIsSuccess r.status
    · cases hd : (parseJson r.body).bind decodeSession with
      | none => left; simp [StripeListener.authorize, hr, hd]
      | some s =>
        right
        refine ⟨s, hr, rfl, ?_, ?_⟩ <;>
          simp [StripeListener.authorize, hr, hd]
    · left; simp [StripeListener.authorize, hr]

/-- Witness for C4: a 400 response with body `nope` yields the
authorization error with that status and body, and the session of a
fresh listener stays unset. -/
theorem c4_authorize_error_leaves_session_witness :
    (StripeListener.new cfg0).authorize ⟨400, "nope"⟩ =
      (Except.error (AuthErr.httpError 400 "nope"), StripeListener.new cfg0) ∧
    ((StripeListener.new cfg0).authorize ⟨400, "nope"⟩).2.session = none :=
  ⟨(c4_authorize_error_leaves_session (StripeListener.new cfg0) ⟨400, "nope"⟩ rfl).1,
   (c4_authorize_error_leaves_session (StripeListener.new cfg0) ⟨400, "nope"⟩ rfl).2.1⟩

/-- Claim C5: on a listener whose stored session is unset, `connect`
fails with the state error and performs no handshake — the outcome is
the same error for every possible handshake result and ingress stream. -/
theorem c5_connect_requires_authorize (l : StripeListener)
    (h : l.session = none) :
    l.connectPrep = Except.error (ConnErr.stateError "call authorize() before connect()") ∧
    (∀ (handshake : Except String Unit) (frames : List ReadItem),
      l.connectModel handshake frames =
        Except.error (ConnErr.stateError "call authorize() before connect()")) := by
  constructor
  · simp [StripeListener.connectPrep, h]
  · intro handshake frames
    simp [StripeListener.connectModel, StripeListener.connectPrep, h]

/-- Witness for C5: a freshly constructed listener refuses `connect`
with the state error, whatever the handshake would have returned. -/
theorem c5_connect_requires_authorize_witness :
    (StripeListener.new cfg0).connectPrep =
      Except.error (ConnErr.stateError "call authorize() before connect()") ∧
    (StripeListener.new cfg0).connectModel (Except.ok ()) [] =
      Except.error (ConnErr.stateError "call authorize() before connect()") :=
  ⟨(c5_connect_requires_authorize (StripeListener.new cfg0) rfl).1,
   (c5_connect_requires_authorize (StripeListener.new cfg0) rfl).2 (Except.ok ()) []⟩

/-- Counterexample to C6 as stated: for the scenario session the built
handshake request does carry the socket identifier and sub-protocol, but
it does not carry the JSON client-identification header block
(`X-Stripe-Client-User-Agent`) that the authorize request carries — the
`HeaderMap` holding it (lib.rs 208-218) is never attached to the
request. -/
theorem c6_counterexample_no_client_id_block :
    l6.connectPrep = Except.ok req6 ∧
    l6.authorizeRequest.headers.lookup "X-Stripe-Client-User-Agent" =
      some xStripeClientUserAgent ∧
    req6.headers.lookup "X-Stripe-Client-User-Agent" = none := by
  refine ⟨?_, ?_, ?_⟩ <;> rfl

/-- Claim C6 as amended: for every session with socket URL U, socket
identifier I and authorized capability F (with a parseable host),
`connect` dials U ++ "?websocket_feature=" ++ F and the handshake request
carries exactly the `Websocket-Id: I` header, the sub-protocol token
`stripecli-devproxy-v1`, and the same `User-Agent` header value used
during authorization — but not the JSON client-identification block. -/
theorem c6_handshake_request (l : StripeListener) (s : Session)
    (host : String) (hs : l.session = some s)
    (hurl : urlHostStr (s.websocket_url ++ "?websocket_feature=" ++
      s.websocket_authorized_feature) = some host) :
    l.connectPrep = Except.ok
      { uri := s.websocket_url ++ "?websocket_feature=" ++
          s.websocket_authorized_feature,
        headers := [("Websocket-Id", s.websocket_id),
                    ("Sec-WebSocket-Protocol", SUBPROTOCOL),
                    ("User-Agent", userAgent)] } ∧
    l.authorizeRequest.headers.lookup "User-Agent" = some userAgent := by
  constructor
  · simp [StripeListener.connectPrep, hs, hurl]
  · by_cases hk : l.cfg.api_key = "" <;>
      simp [StripeListener.authorizeRequest, hk, List.lookup]

/-- Witness for amended C6: the scenario session dials
`wss://x?websocket_feature=webhooks` with header `Websocket-Id: ws_1`,
the sub-protocol token, and the authorize-time `User-Agent`. -/
theorem c6_handshake_request_witness :
    l6.connectPrep = Except.ok
      { uri := "wss://x?websocket_feature=webhooks",
        headers := [("Websocket-Id", "ws_1"),
                    ("Sec-WebSocket-Protocol", SUBPROTOCOL),
                    ("User-Agent", userAgent)] } ∧
    l6.authorizeRequest.headers.lookup "User-Agent" = some userAgent :=
  c6_handshake_request l6 s6 "x" rfl rfl

/-- Closed form of `Config::defaults`: every optional field is filled
with its default when unset and kept otherwise; credential and handler
are untouched. -/
theorem Config.defaults_eq (c : Config) :
    c.defaults =
      { api_key := c.api_key,
        device_name := some (c.device_name.getD "custom-stripe-listener"),
        websocket_features := some (c.websocket_features.getD ["webhooks"]),
        handler := c.handler,
        logger := some (c.logger.getD LoggerRef.nop),
        pong_wait := some (c.pong_wait.getD DEFAULT_PONG_WAIT),
        ping_period := some (c.ping_period.getD DEFAULT_PING_PERIOD) } := by
  obtain ⟨ak, dn, wf, hdl, lg, pw, pp⟩ := c
  unfold Config.defaults
  cases dn <;> cases wf <;> cases pw <;> cases pp <;> cases lg <;> simp

/-- Claim C7: a configuration constructed with every optional field
unset receives device label "custom-stripe-listener", capability list
["webhooks"], probe interval 2 seconds, liveness timeout 10 seconds and
the no-op logger; and defaulting never overwrites a field the caller
supplied (nor the credential or the handler). -/
theorem c7_config_defaults (cfg : Config)
    (h1 : cfg.device_name = none) (h2 : cfg.websocket_features = none)
    (h3 : cfg.pong_wait = none) (h4 : cfg.ping_period = none)
    (h5 : cfg.logger = none) :
    (StripeListener.new cfg).cfg =
      { cfg with device_name := some "custom-stripe-listener",
                 websocket_features := some ["webhooks"],
                 pong_wait := some 10,
                 ping_period := some 2,
                 logger := some LoggerRef.nop } ∧
    (∀ c : Config,
      c.defaults.api_key = c.api_key ∧
      c.defaults.handler = c.handler ∧
      (∀ v, c.device_name = some v → c.defaults.device_name = some v) ∧
      (∀ v, c.websocket_features = some v → c.defaults.websocket_features = some v) ∧
      (∀ v, c.pong_wait = some v → c.defaults.pong_wait = some v) ∧
      (∀ v, c.ping_period = some v → c.defaults.ping_period = some v) ∧
      (∀ v, c.logger = some v → c.defaults.logger = some v)) := by
  constructor
  · simp [StripeListener.new, Config.defaults_eq, h1, h2, h3, h4, h5,
      DEFAULT_PONG_WAIT, DEFAULT_PING_PERIOD]
  · intro c
    refine ⟨by simp [Config.defaults_eq], by simp [Config.defaults_eq],
      fun v hv => by simp [Config.defaults_eq, hv],
      fun v hv => by simp [Config.defaults_eq, hv],
      fun v hv => by simp [Config.defaults_eq, hv],
      fun v hv => by simp [Config.defaults_eq, hv],
      fun v hv => by simp [Config.defaults_eq, hv]⟩

/-- Witness for C7: the sample all-unset configuration yields exactly
the documented defaults. -/
theorem c7_config_defaults_witness :
    (StripeListener.new cfg0).cfg =
      ⟨"sk_test_123", some "custom-stripe-listener", some ["webhooks"], 0,
       some LoggerRef.nop, some 10, some 2⟩ :=
  (c7_config_defaults cfg0 rfl rfl rfl rfl rfl).1

/-- Dispatching a run of non-terminal ingress items prepends their step
traces; the loop keeps running on whatever follows. -/
theorem readLoop_append_of_nonterminal (fs rest : List ReadItem)
    (h : ∀ i ∈ fs, i.isTerminal = false) :
    readLoop (fs ++ rest) = stepTraces fs ++ readLoop rest := by
  induction fs with
  | nil => simp [stepTraces]
  | cons i fs ih =>
    have hi := h i (by simp)
    have hfs : ∀ j ∈ fs, j.isTerminal = false := fun j hj => h j (by simp [hj])
    cases i with
    | err e => simp [ReadItem.isTerminal] at hi
    | ok m =>
      cases m with
      | text s =>
        simp [readLoop, stepTraces, ReadItem.stepTrace, ih hfs]
      | binary b => simpa [readLoop, stepTraces, ReadItem.stepTrace] using ih hfs
      | ping p => simpa [readLoop, stepTraces, ReadItem.stepTrace] using ih hfs
      | pong p => simpa [readLoop, stepTraces, ReadItem.stepTrace] using ih hfs
      | close => simp [ReadItem.isTerminal] at hi

/-- Claim C8: once the handshake has succeeded, `connect` returns a
normal (non-error) termination for every ingress stream; a stream ending
in a read error terminates the loop with the error logged (not
surfaced), a close frame terminates it with an info log, and exhaustion
terminates it silently. -/
theorem c8_read_loop_termination_is_normal (l : StripeListener)
    (req : HandshakeRequest) (hprep : l.connectPrep = Except.ok req)
    (frames fs : List ReadItem) (e : String)
    (hfs : ∀ i ∈ fs, i.isTerminal = false) :
    l.connectModel (Except.ok ()) frames =
      Except.ok (connectLogTrace req ++ readLoop frames) ∧
    readLoop (fs ++ [ReadItem.err e]) =
      stepTraces fs ++ [TraceItem.logError ("read error: " ++ e)] ∧
    readLoop (fs ++ [ReadItem.ok WsMessage.close]) =
      stepTraces fs ++ [TraceItem.logInfo "websocket closed"] ∧
    readLoop fs = stepTraces fs := by
  refine ⟨?_, ?_, ?_, ?_⟩
  · simp [StripeListener.connectModel, hprep]
  · rw [readLoop_append_of_nonterminal fs _ hfs]; rfl
  · rw [readLoop_append_of_nonterminal fs _ hfs]; rfl
  · simpa [readLoop] using readLoop_append_of_nonterminal fs [] hfs

/-- Witness for C8: on the scenario listener, a stream ending in a read
error still makes `connect` return `Ok`, with the error logged as the
last trace entry. -/
theorem c8_read_loop_termination_is_normal_witness :
    l6.connectModel (Except.ok ())
        [ReadItem.ok (WsMessage.ping []), ReadItem.err "boom"] =
      Except.ok (connectLogTrace req6 ++
        readLoop [ReadItem.ok (WsMessage.ping []), ReadItem.err "boom"]) ∧
    readLoop [ReadItem.ok (WsMessage.ping []), ReadItem.err "boom"] =
      stepTraces [ReadItem.ok (WsMessage.ping [])] ++
        [TraceItem.logError ("read error: " ++ "boom")] ∧
    readLoop [ReadItem.ok (WsMessage.ping []), ReadItem.ok WsMessage.close] =
      stepTraces [ReadItem.ok (WsMessage.ping [])] ++
        [TraceItem.logInfo "websocket closed"] ∧
    readLoop [ReadItem.ok (WsMessage.ping [])] =
      stepTraces [ReadItem.ok (WsMessage.ping [])] :=
  c8_read_loop_termination_is_normal l6 req6 rfl
    [ReadItem.ok (WsMessage.ping []), ReadItem.err "boom"]
    [ReadItem.ok (WsMessage.ping [])] "boom" (by decide)

/-- Claim C9: the liveness timeout (`pong_wait`) is accepted and
defaulted by configuration but never enforced: two listeners built from
configurations identical except in `pong_wait` produce the same
authorize request, the same authorize outcome and stored session for
every HTTP response, the same prober period, and the same `connect`
behavior (handshake request and full session trace) for every session,
handshake outcome and ingress stream. -/
theorem c9_pong_wait_never_enforced (c : Config) (w w2 : Option Nat) :
    (StripeListener.new { c with pong_wait := w }).authorizeRequest =
      (StripeListener.new { c with pong_wait := w2 }).authorizeRequest ∧
    (∀ resp : HttpResponse,
      ((StripeListener.new { c with pong_wait := w }).authorize resp).1 =
        ((StripeListener.new { c with pong_wait := w2 }).authorize resp).1 ∧
      ((StripeListener.new { c with pong_wait := w }).authorize resp).2.session =
        ((StripeListener.new { c with pong_wait := w2 }).authorize resp).2.session) ∧
    (StripeListener.new { c with pong_wait := w }).cfg.ping_period =
      (StripeListener.new { c with pong_wait := w2 }).cfg.ping_period ∧
    (∀ (s : Option Session) (handshake : Except String Unit)
        (frames : List ReadItem),
      ({ StripeListener.new { c with pong_wait := w } with
          session := s }).connectModel handshake frames =
        ({ StripeListener.new { c with pong_wait := w2 } with
            session := s }).connectModel handshake frames) := by
  refine ⟨?_, ?_, ?_, ?_⟩
  · simp [StripeListener.authorizeRequest, StripeListener.new, Config.defaults_eq]
  · intro resp
    by_cases hr : statusIsSuccess resp.status
    · cases hd : (parseJson resp.body).bind decodeSession with
      | none =>
        constructor <;>
          simp [StripeListener.authorize, StripeListener.new, hr, hd]
      | some s =>
        constructor <;>
          simp [StripeListener.authorize, StripeListener.new, hr, hd]
    · constructor <;> simp [StripeListener.authorize, StripeListener.new, hr]
  · simp [StripeListener.new, Config.defaults_eq]
  · intro s handshake frames
    simp [StripeListener.connectModel, StripeListener.connectPrep]

/-- Claim C10: with an empty credential the authorize request is still
built for the same endpoint but carries neither an `Authorization` nor a
`Content-Type` header; the bearer header is attached exactly when the
credential is non-empty. -/
theorem c10_empty_key_no_auth_header (l : StripeListener) :
    (l.cfg.api_key = "" →
      l.authorizeRequest.headers.lookup "Authorization" = none ∧
      l.authorizeRequest.headers.lookup "Content-Type" = none ∧
      l.authorizeRequest.url = API_BASE ++ SESSION_PATH) ∧
    (l.cfg.api_key ≠ "" →
      l.authorizeRequest.headers.lookup "Authorization" =
        some ("Bearer " ++ l.cfg.api_key) ∧
      l.authorizeRequest.headers.lookup "Content-Type" =
        some "application/x-www-form-urlencoded") := by
  constructor <;> intro h <;>
    simp [StripeListener.authorizeRequest, h, List.lookup]

/-- Witness for C10: the empty-credential configuration produces a
request with no `Authorization` and no `Content-Type` header, while the
sample credential produces the bearer header. -/
theorem c10_empty_key_no_auth_header_witness :
    ((StripeListener.new cfgEmptyKey).authorizeRequest.headers.lookup
        "Authorization" = none ∧
      (StripeListener.new cfgEmptyKey).authorizeRequest.headers.lookup
        "Content-Type" = none ∧
      (StripeListener.new cfgEmptyKey).authorizeRequest.url =
        API_BASE ++ SESSION_PATH) ∧
    (StripeListener.new cfg0).authorizeRequest.headers.lookup
        "Authorization" = some "Bearer sk_test_123" :=
  ⟨(c10_empty_key_no_auth_header (StripeListener.new cfgEmptyKey)).1 rfl,
   ((c10_empty_key_no_auth_header (StripeListener.new cfg0)).2 (by decide)).1⟩
